import Mathlib

/-!
Verification development for the Okay-Bet trading-agents repository.

The development shallowly embeds the configuration-resolution and setup
logic of the repository: the strategy factory's activation rules (pinned by
its test file), the character loader (`src/utils/character-loader.ts`), the
database setup script's `loadAgentConfig` and agents-table bootstrap, and
the spec's risk-gate / index-strategy contracts.

Environment variables are modelled as `Option String` fields (a set variable
may still be the empty string, which JavaScript treats as falsy), and the
filesystem as a function from a path to `Option (Option Json)`: the outer
`Option` is whether the file exists, the inner one whether its contents
parse as JSON.
-/

namespace TradingAgents

/-- JavaScript truthiness of a possibly-absent string: `undefined`, `null`
and the empty string are falsy. -/
def truthy : Option String → Bool
  | none => false
  | some s => s ≠ ""

/-- The JavaScript idiom `x || d` on a possibly-absent string: the fallback
`d` is used when `x` is absent or empty. -/
def strOr (x : Option String) (d : String) : String :=
  match x with
  | none => d
  | some s => if s = "" then d else s

/-! ## Strategy factory

`StrategyFactory.createStrategies` is absent from the sources; only its
test file (`StrategyFactory.test.ts`) is present.  The model below is
modelled from the spec (section 4.1 activation precedence) with the
behavior for identities that have a default-table entry resolved the way
the test file fixes it: a named identity receives its mapped default
strategy even when the global trading flag is false ("TRADING_ENABLED only
affects unknown agents in default case", per the test's own comment), the
variant the spec's section 9 records as the source's actual behavior.
-/

/-- The four strategy variants of the closed tagged union. -/
inductive StrategyType where
  | interactive
  | expiringMarkets
  | index
  | simpleThreshold
deriving DecidableEq, Repr

/-- The runtime name of each strategy variant, as the test file observes
them through `strategy.name`. -/
def strategyName : StrategyType → String
  | .interactive => "InteractiveStrategy"
  | .expiringMarkets => "ExpiringMarketsStrategy"
  | .index => "IndexStrategy"
  | .simpleThreshold => "SimpleThresholdStrategy"

/-- Modelled from the spec: the per-agent-identity default table
(section 4.1 rule 2), with the entries the test file exercises. -/
def defaultStrategyTable : String → Option StrategyType
  | "pamela" => some .interactive
  | "chalk-eater" => some .expiringMarkets
  | "lib-out" => some .index
  | "nothing-ever-happens" => some .simpleThreshold
  | "trumped-up" => some .simpleThreshold
  | _ => none

/-- The configuration surface the factory reads: the agent identity, the
global trading flag, the four per-strategy explicit enable flags
(tri-state: absent, explicitly true, explicitly false) and the index
identifier. -/
structure StrategyEnv where
  agentCharacter : Option String
  tradingEnabled : Bool
  interactiveEnabled : Option Bool
  expiringEnabled : Option Bool
  indexEnabled : Option Bool
  simpleEnabled : Option Bool
  spmcIndexId : Option String
deriving DecidableEq, Repr

/-- The strategies activated by explicit per-strategy enable flags; the
flags compose additively (spec section 4.1 rule 1). -/
def explicitStrategies (e : StrategyEnv) : List StrategyType :=
  (if e.interactiveEnabled = some true then [StrategyType.interactive] else []) ++
  (if e.expiringEnabled = some true then [StrategyType.expiringMarkets] else []) ++
  (if e.indexEnabled = some true then [StrategyType.index] else []) ++
  (if e.simpleEnabled = some true then [StrategyType.simpleThreshold] else [])

/-- Modelled from the spec: `StrategyFactory.createStrategies`.  Explicit
enable flags win when any is set; otherwise the identity's default-table
entry is activated unconditionally, and an identity without a table entry
falls back to the baseline SimpleThreshold strategy only when trading is
enabled. -/
def createStrategies (e : StrategyEnv) : List StrategyType :=
  let explicit := explicitStrategies e
  if explicit.isEmpty then
    match defaultStrategyTable (strOr e.agentCharacter "pamela") with
    | some t => [t]
    | none => if e.tradingEnabled then [StrategyType.simpleThreshold] else []
  else explicit

/-- A `StrategyEnv` with no explicit enable flags set, as the tests build it:
only `AGENT_CHARACTER`, `TRADING_ENABLED` and `SPMC_INDEX_ID` vary. -/
def noFlagsEnv (agentCharacter : String) (tradingEnabled : Bool)
    (spmcIndexId : Option String) : StrategyEnv :=
  { agentCharacter := some agentCharacter
    tradingEnabled := tradingEnabled
    interactiveEnabled := none
    expiringEnabled := none
    indexEnabled := none
    simpleEnabled := none
    spmcIndexId := spmcIndexId }

/-! ## Market data, trade signals and the Index strategy

The strategy variants' evaluation code is absent from the sources; the
types and the Index strategy below are modelled from the spec
(sections 3, 4.2). -/

/-- Modelled from the spec: an immutable market snapshot (section 3). -/
structure MarketSnapshot where
  marketId : String
  tokenId : String
  price : ℚ
  liquidity : ℚ
  secondsToResolution : ℚ
  impliedProbability : ℚ
deriving DecidableEq, Repr

/-- Order side of a trade signal. -/
inductive Side where
  | buy
  | sell
deriving DecidableEq, Repr

/-- Modelled from the spec: a proposed, not-yet-validated trade
(section 3). -/
structure TradeSignal where
  sourceStrategy : String
  tokenId : String
  side : Side
  size : ℚ
  limitPrice : ℚ
  confidence : ℚ
  rationale : String
deriving DecidableEq, Repr

/-- Configuration of the Index strategy: the external index identifier
(`SPMC_INDEX_ID`, possibly unset) and the target basket weights. -/
structure IndexConfig where
  indexId : Option String
  targetWeights : List (String × ℚ)
deriving DecidableEq, Repr

/-- Current exposure of the agent on a token, read from its open
positions. -/
def exposureOn (positions : List (String × ℚ)) (tok : String) : ℚ :=
  ((positions.lookup tok).getD 0)

/-- Modelled from the spec: the rebalancing signals of the Index strategy
when an index identifier is configured — for each target-basket token whose
current exposure differs from its target weight, one signal converging the
exposure toward the target (section 4.2). -/
def indexRebalanceSignals (cfg : IndexConfig) (positions : List (String × ℚ)) :
    List TradeSignal :=
  cfg.targetWeights.filterMap fun tw =>
    let current := exposureOn positions tw.1
    if current = tw.2 then none
    else
      some { sourceStrategy := "IndexStrategy"
             tokenId := tw.1
             side := if current < tw.2 then Side.buy else Side.sell
             size := |tw.2 - current|
             limitPrice := 1
             confidence := 1
             rationale := "rebalance toward target basket weight" }

/-- Modelled from the spec: `IndexStrategy.evaluate`.  With no configured
index identifier the strategy is inert: it returns zero signals rather
than an error (section 4.2, deliberate soft-fail). -/
def indexEvaluate (cfg : IndexConfig) (positions : List (String × ℚ))
    (snapshots : List MarketSnapshot) : Except String (List TradeSignal) :=
  match cfg.indexId with
  | none => Except.ok []
  | some _ =>
      Except.ok <| (indexRebalanceSignals cfg positions).filter fun sig =>
        snapshots.any fun snap => snap.tokenId = sig.tokenId

/-- The Index strategy configuration the factory derives from the
environment: the index identifier is `SPMC_INDEX_ID` when that variable is
set and nonempty. -/
def indexConfigOf (e : StrategyEnv) (targetWeights : List (String × ℚ)) :
    IndexConfig :=
  { indexId := if truthy e.spmcIndexId then e.spmcIndexId else none
    targetWeights := targetWeights }

/-! ## Risk gate and agent wallet

The risk gate's code is absent from the sources; the model below is
modelled from the spec (sections 3, 4.3): the submit sequence
short-circuits on the first failing check, and the wallet projection is
updated only by a confirmed fill. -/

/-- Modelled from the spec: the agent wallet projection (section 3). -/
structure AgentWallet where
  collateralBalance : ℚ
  openPositions : List (String × ℚ)
deriving DecidableEq, Repr

/-- The terminal outcomes of submitting one signal (spec sections 4.3, 7). -/
inductive OrderOutcome where
  | filled
  | marketInvalid
  | duplicateInFlight
  | insufficientBalance
  | positionLimitExceeded
  | exchangeRejected
  | indeterminate
deriving DecidableEq, Repr

/-- The result of submitting one order. -/
structure OrderResult where
  outcome : OrderOutcome
  reason : String
deriving DecidableEq, Repr

/-- The exchange's reply to a submitted order, abstracting the
`ExchangeClient` collaborator. -/
inductive ExchangeReply where
  | fill
  | reject (reason : String)
  | timeout
deriving DecidableEq, Repr

/-- The gate's fixed context: the exchange's market-validity view, the
per-token in-flight markers, and the configured maximum per-market
exposure. -/
structure GateCtx where
  validMarket : String → Bool
  inFlight : String → Bool
  maxExposure : ℚ

/-- Modelled from the spec: the wallet update applied on a confirmed fill —
a BUY debits the collateral by the order's notional and grows the position,
a SELL credits the proceeds and shrinks it (sections 3, 4.3 step 5). -/
def applyFill (sig : TradeSignal) (w : AgentWallet) : AgentWallet :=
  let held := exposureOn w.openPositions sig.tokenId
  match sig.side with
  | Side.buy =>
      { collateralBalance := w.collateralBalance - sig.size * sig.limitPrice
        openPositions := (sig.tokenId, held + sig.size) ::
          w.openPositions.filter (fun p => p.1 ≠ sig.tokenId) }
  | Side.sell =>
      { collateralBalance := w.collateralBalance + sig.size * sig.limitPrice
        openPositions := (sig.tokenId, held - sig.size) ::
          w.openPositions.filter (fun p => p.1 ≠ sig.tokenId) }

/-- Modelled from the spec: `RiskGate.submit` (section 4.3).  The checks
run in order — market validation, in-flight, balance, position limit —
short-circuiting on the first failure; only then is the order delegated to
the exchange, and only a confirmed fill updates the wallet. -/
def submit (ctx : GateCtx) (reply : ExchangeReply) (sig : TradeSignal)
    (w : AgentWallet) : OrderResult × AgentWallet :=
  if ¬ ctx.validMarket sig.tokenId then
    ({ outcome := OrderOutcome.marketInvalid, reason := "unknown or inactive market" }, w)
  else if ctx.inFlight sig.tokenId then
    ({ outcome := OrderOutcome.duplicateInFlight, reason := "order already in flight" }, w)
  else if (match sig.side with
           | Side.buy => decide (sig.size * sig.limitPrice > w.collateralBalance)
           | Side.sell => decide (sig.size > exposureOn w.openPositions sig.tokenId)) then
    ({ outcome := OrderOutcome.insufficientBalance, reason := "notional exceeds available collateral" }, w)
  else if (match sig.side with
           | Side.buy => (exposureOn w.openPositions sig.tokenId + sig.size) * sig.limitPrice
           | Side.sell => (exposureOn w.openPositions sig.tokenId - sig.size) * sig.limitPrice)
          > ctx.maxExposure then
    ({ outcome := OrderOutcome.positionLimitExceeded, reason := "per-market exposure limit" }, w)
  else
    match reply with
    | ExchangeReply.fill =>
        ({ outcome := OrderOutcome.filled, reason := "" }, applyFill sig w)
    | ExchangeReply.reject r =>
        ({ outcome := OrderOutcome.exchangeRejected, reason := r }, w)
    | ExchangeReply.timeout =>
        ({ outcome := OrderOutcome.indeterminate, reason := "submission timed out" }, w)

/-! ## Character loader (`src/utils/character-loader.ts`)

The loader reads environment variables (`CONFIG_PATH`, `AGENT_CHARACTER`,
`AGENT_ID`) and JSON files.  A parsed JSON document is modelled as the
record of the fields any of the readers inspect: the injected SPMC config
reads `character`, `agent_character` and `agent_id`, while the legacy
per-agent file is read as a top-level character definition. -/

/-- The fields of a character definition that the loaders inspect or that
validation examines; each may be absent in the JSON. -/
structure CharacterDef where
  id : Option String
  name : Option String
  system : Option String
deriving DecidableEq, Repr

/-- The fields of a parsed JSON configuration document that any reader
inspects: the nested character definition, the registry reference
`agent_character`, the bare `agent_id`, and the top-level character fields
used when the same document is read as a legacy per-agent file. -/
structure Json where
  character : Option CharacterDef
  agent_character : Option String
  agent_id : Option String
  id : Option String
  name : Option String
  system : Option String
deriving DecidableEq, Repr

/-- A loaded runtime character; only the fields the loader and validator
examine are modelled (the remaining fields are configuration payload the
control flow never branches on). -/
structure Character where
  id : Option String
  name : Option String
  system : Option String
deriving DecidableEq, Repr

/-- The environment variables the loaders read. -/
structure LoaderEnv where
  configPath : Option String
  agentCharacter : Option String
  agentId : Option String
deriving DecidableEq, Repr

/-- The filesystem as the loaders observe it: `none` when the path does not
exist, `some none` when the file exists but its contents fail to parse as
JSON, `some (some j)` when it parses to document `j`. -/
def FileSystem := String → Option (Option Json)

/-- `buildCharacterFromConfig` of `character-loader.ts`: the runtime
character built from a (possibly incomplete) character definition; the
fields are copied as-is, an absent `id`, `name` or `system` stays absent. -/
def buildCharacterFromConfig (cd : CharacterDef) : Character :=
  { id := cd.id, name := cd.name, system := cd.system }

/-- The legacy per-agent file is read as a top-level character definition. -/
def topLevelCharacterDef (j : Json) : CharacterDef :=
  { id := j.id, name := j.name, system := j.system }

/-- The path of the injected SPMC config: `CONFIG_PATH` when set and
nonempty, `/app/config.json` otherwise. -/
def spmcConfigPath (env : LoaderEnv) : String :=
  strOr env.configPath "/app/config.json"

/-- The legacy per-agent config path, `agents/<name>/agent-config.json`,
for the resolved agent name. -/
def legacyConfigPath (agentName : String) : String :=
  "agents/" ++ agentName ++ "/agent-config.json"

/-- Priorities 2 to 4 of `loadCharacter` of `character-loader.ts`:
the legacy `agents/<name>/agent-config.json` file when it exists and
parses, else the registry entry for the agent name, else the hardcoded
default character.  The registry and the default character live in the
character modules (absent from the sources) and are passed as
parameters. -/
def loadCharacterTail (registry : String → Option Character)
    (defaultCharacter : Character) (fs : FileSystem) (agentName : String) :
    Character :=
  match fs (legacyConfigPath agentName) with
  | some (some j) => buildCharacterFromConfig (topLevelCharacterDef j)
  | _ =>
    match registry agentName with
    | some ch => ch
    | none => defaultCharacter

/-- `loadCharacter` of `character-loader.ts`.  Priority 1 is the injected
config file: a present `character` field wins outright; otherwise a truthy
`agent_character` field naming a registry entry returns that entry; in
every other case (file absent, parse failure, no usable field, registry
miss) the loader falls through to `loadCharacterTail`. -/
def loadCharacter (registry : String → Option Character)
    (defaultCharacter : Character) (fs : FileSystem) (env : LoaderEnv) :
    Character :=
  let agentName := strOr env.agentCharacter "pamela"
  match fs (spmcConfigPath env) with
  | some (some j) =>
    match j.character with
    | some cd => buildCharacterFromConfig cd
    | none =>
      if truthy j.agent_character then
        match registry (j.agent_character.getD "") with
        | some ch => ch
        | none => loadCharacterTail registry defaultCharacter fs agentName
      else loadCharacterTail registry defaultCharacter fs agentName
  | _ => loadCharacterTail registry defaultCharacter fs agentName

/-! ## `loadAgentConfig` of `scripts/setup-agent-db.mjs`

The database setup script resolves the character configuration with its
own copy of the fallback chain.  Its priority-1 guard is stricter than the
runtime loader's (`config.character && config.character.id &&
config.character.name`); when the guard fails but the config carries a bare
`agent_id`, the script assigns it to the `AGENT_ID` environment variable,
which its priority-4 fallback then reads.  Priority 3 only logs (the
registry `.ts` file cannot be imported from the script) and always falls
through to the fallback record. -/

/-- The configuration record the setup script resolves; its fallback
branch always produces an id, but the legacy branch copies a possibly
absent one. -/
structure AgentConfigRecord where
  id : Option String
  name : Option String
  system : String
deriving DecidableEq, Repr

/-- The hardcoded default Pamela id the setup script falls back to. -/
def hardcodedPamelaId : String := "885c8140-1f94-4be4-b553-ab5558b4d800"

/-- The setup script's priority-1 guard: the injected config's character
definition is used only when it has a truthy id and a truthy name. -/
def spmcCharacterGuard (j : Json) : Option CharacterDef :=
  match j.character with
  | some cd => if truthy cd.id && truthy cd.name then some cd else none
  | none => none

/-- `loadAgentConfig` of `scripts/setup-agent-db.mjs`, as a pure function
of the filesystem and environment. -/
def loadAgentConfig (fs : FileSystem) (env : LoaderEnv) : AgentConfigRecord :=
  let agentCharacter := strOr env.agentCharacter "pamela"
  let parsed : Option Json :=
    match fs (spmcConfigPath env) with
    | some (some j) => some j
    | _ => none
  match parsed.bind spmcCharacterGuard with
  | some cd => { id := cd.id, name := cd.name, system := strOr cd.system "" }
  | none =>
    -- when the guard fails and the config carries a bare agent_id, the
    -- script assigns it to process.env.AGENT_ID before falling through
    let effectiveAgentId : Option String :=
      match parsed with
      | some j => if truthy j.agent_id then j.agent_id else env.agentId
      | none => env.agentId
    match fs (legacyConfigPath agentCharacter) with
    | some (some j) => { id := j.id, name := j.name, system := strOr j.system "" }
    | _ =>
      { id := some (strOr effectiveAgentId hardcodedPamelaId)
        name := some agentCharacter.capitalize
        system := "You are " ++ agentCharacter ++ ", a trading agent on Polymarket." }

/-! ## `validateCharacter` of `character-loader.ts` -/

/-- The id-format check of `validateCharacter`: the regular expression
`^[^-]+-[^-]+-[^-]+-[^-]+-[^-]+$` accepts exactly the strings made of five
nonempty dash-free segments joined by dashes, which is exactly what
splitting on the dash tests below. -/
def fiveSegments (s : String) : Bool :=
  let parts := s.splitOn "-"
  parts.length == 5 && parts.all (fun p => p ≠ "")

/-- `validateCharacter` of `character-loader.ts`: throws when the id, name
or system prompt is missing, or when the id is not five dash-separated
nonempty segments.  The `AGENT_ID` environment variable is read only to
print a mismatch warning; it never affects the result, and the character is
not modified. -/
def validateCharacter (env : LoaderEnv) (c : Character) : Except String Unit :=
  if ¬ truthy c.id then Except.error "Character must have an id"
  else if ¬ truthy c.name then Except.error "Character must have a name"
  else if ¬ truthy c.system then Except.error "Character must have a system prompt"
  else if ¬ fiveSegments (c.id.getD "") then
    Except.error ("Invalid character ID format: " ++ c.id.getD "")
  else
    -- a mismatch between env.agentId and c.id is only warned about
    Except.ok ()

/-! ## Agents-table bootstrap of `setupAgentDatabase`

The claim-relevant step of `setupAgentDatabase`: after creating the
tables, the script selects the agent row by the resolved config's id; when
none exists it deletes any row with the same name but a different id and
inserts the new row; when one exists it changes nothing. -/

/-- One row of the `agents` table; the payload columns the script writes
but never branches on are summarised by `system`. -/
structure AgentRow where
  id : String
  name : String
  username : String
  system : String
deriving DecidableEq, Repr

/-- The username the insert derives from the name: lowercased, blanks
replaced by underscores. -/
def usernameOf (name : String) : String :=
  (name.toLower.map fun c => if c = ' ' then '_' else c)

/-- The row inserted for a resolved configuration (an absent id or name is
serialised as the empty string by the database driver). -/
def agentRowOf (cfg : AgentConfigRecord) : AgentRow :=
  { id := cfg.id.getD ""
    name := cfg.name.getD ""
    username := usernameOf (cfg.name.getD "")
    system := cfg.system }

/-- The agents-table step of `setupAgentDatabase`: if a row with the
config's id exists the table is left unchanged; otherwise rows with the
same name but a different id are deleted and the new row is inserted. -/
def setupAgentsStep (cfg : AgentConfigRecord) (table : List AgentRow) :
    List AgentRow :=
  if table.any (fun r => r.id = cfg.id.getD "") then table
  else
    (table.filter fun r =>
      ¬ (r.name = cfg.name.getD "" ∧ r.id ≠ cfg.id.getD "")) ++ [agentRowOf cfg]

/-! ## Precedence resolution as an ordered list of resolvers

For the refinement claims, the fallback chain is restated as an ordered
list of resolver functions with first-success-wins semantics, as the spec
prescribes (section 9). -/

/-- First-success-wins over an ordered list of resolver results, with a
final default. -/
def firstSuccess (resolvers : List (Option Character)) (d : Character) :
    Character :=
  match resolvers with
  | [] => d
  | some c :: _ => c
  | none :: rest => firstSuccess rest d

/-- Resolver: the injected config file, succeeding exactly when it exists,
parses and carries a character definition. -/
def resolveInjectedCharacter (fs : FileSystem) (env : LoaderEnv) :
    Option Character :=
  match fs (spmcConfigPath env) with
  | some (some j) => j.character.map buildCharacterFromConfig
  | _ => none

/-- Resolver: the registry entry named by the injected config file through
its `agent_character` field, consulted only when the config exists and
parses without a character definition. -/
def resolveInjectedRegistryRef (registry : String → Option Character)
    (fs : FileSystem) (env : LoaderEnv) : Option Character :=
  match fs (spmcConfigPath env) with
  | some (some j) =>
    match j.character with
    | some _ => none
    | none =>
      if truthy j.agent_character then registry (j.agent_character.getD "")
      else none
  | _ => none

/-- Resolver: the legacy per-agent file for a given agent name, succeeding
exactly when it exists and parses. -/
def resolveLegacyAt (fs : FileSystem) (agentName : String) :
    Option Character :=
  match fs (legacyConfigPath agentName) with
  | some (some j) => some (buildCharacterFromConfig (topLevelCharacterDef j))
  | _ => none

/-- Stated from the claim: `loadCharacter` as a four-source precedence —
injected config with a character definition, else legacy file, else
registry entry for the agent name, else hardcoded default — where a later
source is never returned when an earlier one succeeds. -/
def loadCharacterFourSource (registry : String → Option Character)
    (defaultCharacter : Character) (fs : FileSystem) (env : LoaderEnv) :
    Character :=
  let agentName := strOr env.agentCharacter "pamela"
  firstSuccess
    [resolveInjectedCharacter fs env,
     resolveLegacyAt fs agentName,
     registry agentName] defaultCharacter

/-- The precedence `loadCharacter` actually implements: the four-source
chain of the claim with a fifth resolver between the injected config and
the legacy file — the registry entry named by the config through its
`agent_character` field. -/
def loadCharacterFiveSource (registry : String → Option Character)
    (defaultCharacter : Character) (fs : FileSystem) (env : LoaderEnv) :
    Character :=
  let agentName := strOr env.agentCharacter "pamela"
  firstSuccess
    [resolveInjectedCharacter fs env,
     resolveInjectedRegistryRef registry fs env,
     resolveLegacyAt fs agentName,
     registry agentName] defaultCharacter

/-- Priorities 2 to 4 of the loader are themselves a first-success-wins
chain of the legacy file and the registry entry. -/
lemma loadCharacterTail_eq_firstSuccess (registry : String → Option Character)
    (d : Character) (fs : FileSystem) (agentName : String) :
    loadCharacterTail registry d fs agentName =
    firstSuccess [resolveLegacyAt fs agentName, registry agentName] d := by
  unfold loadCharacterTail resolveLegacyAt
  rcases hl : fs (legacyConfigPath agentName) with _ | (_ | jl) <;>
    simp [firstSuccess, hl] <;>
  rcases hr : registry agentName with _ | ch <;> simp [firstSuccess, hr]

/-! ## Concrete fixtures used by counterexamples and witnesses -/

/-- The chalk-eater registry character (`src/characters`, its id as the
character module declares it). -/
def chalkCharacter : Character :=
  { id := some "d2f8e9a3-6c4b-4d2e-8f3a-9c1d7e5b3a2f"
    name := some "Chalk Eater"
    system := some "You are Chalk Eater, an autonomous trading agent." }

/-- A default character fixture standing for the hardcoded pamela. -/
def pamelaCharacter : Character :=
  { id := some hardcodedPamelaId
    name := some "Pamela"
    system := some "You are Pamela, a trading agent." }

/-- A registry fixture holding only the chalk-eater entry. -/
def fixtureRegistry : String → Option Character := fun n =>
  if n = "chalk-eater" then some chalkCharacter else none

/-- An injected config document that carries no character definition but
names chalk-eater through `agent_character`. -/
def refOnlyConfigJson : Json :=
  { character := none
    agent_character := some "chalk-eater"
    agent_id := none
    id := none
    name := none
    system := none }

/-- A legacy per-agent document with a full top-level character. -/
def legacyJson : Json :=
  { character := none
    agent_character := none
    agent_id := none
    id := some "legacy-1111-2222-3333-4444"
    name := some "Legacy Pamela"
    system := some "legacy system prompt" }

/-- A filesystem in which the injected config only references the registry
while a legacy pamela file exists as well. -/
def refOnlyFs : FileSystem := fun p =>
  if p = "/app/config.json" then some (some refOnlyConfigJson)
  else if p = "agents/pamela/agent-config.json" then some (some legacyJson)
  else none

/-- An environment with no variables set. -/
def emptyEnv : LoaderEnv :=
  { configPath := none, agentCharacter := none, agentId := none }

/-! ## Claim theorems -/

/-- C5 (counterexample): `loadCharacter` is not the four-source precedence
of the claim.  Concrete input: the injected config exists and parses but
has no character definition, only an `agent_character` reference to the
chalk-eater registry entry, while a legacy pamela file exists.  The
claimed precedence would fail source 1 and return the legacy character;
the code returns the registry character from within priority 1. -/
theorem loadCharacter_ne_fourSource_on_refOnlyConfig :
    loadCharacter fixtureRegistry pamelaCharacter refOnlyFs emptyEnv =
      chalkCharacter ∧
    loadCharacterFourSource fixtureRegistry pamelaCharacter refOnlyFs emptyEnv =
      buildCharacterFromConfig (topLevelCharacterDef legacyJson) ∧
    loadCharacter fixtureRegistry pamelaCharacter refOnlyFs emptyEnv ≠
    loadCharacterFourSource fixtureRegistry pamelaCharacter refOnlyFs emptyEnv := by
  refine ⟨by decide, by decide, by decide⟩

/-- C5 (amended): `loadCharacter` is pure first-success-wins precedence
resolution over an ordered list of resolvers, but over five sources, not
four — between the injected character definition and the legacy file sits
the registry entry the injected config names through `agent_character`.
A later source is never returned when an earlier one succeeds. -/
theorem loadCharacter_eq_fiveSource (registry : String → Option Character)
    (defaultCharacter : Character) (fs : FileSystem) (env : LoaderEnv) :
    loadCharacter registry defaultCharacter fs env =
    loadCharacterFiveSource registry defaultCharacter fs env := by
  unfold loadCharacter loadCharacterFiveSource resolveInjectedCharacter
    resolveInjectedRegistryRef
  rcases hfs : fs (spmcConfigPath env) with _ | (_ | j)
  · simp [hfs, firstSuccess, loadCharacterTail_eq_firstSuccess]
  · simp [hfs, firstSuccess, loadCharacterTail_eq_firstSuccess]
  · rcases hc : j.character with _ | cd
    · by_cases hac : truthy j.agent_character
      · rcases hr : registry (j.agent_character.getD "") with _ | ch <;>
          simp [hfs, hc, hac, hr, firstSuccess, loadCharacterTail_eq_firstSuccess]
      · simp [hfs, hc, hac, firstSuccess, loadCharacterTail_eq_firstSuccess]
    · simp [hfs, hc, firstSuccess]

/-- C1 (counterexample): with the global trading flag false and no explicit
enable flags, the identity "pamela" does not get an empty strategy set —
the factory still activates her default InteractiveStrategy, exactly as
the test "should create default strategy even when TRADING_ENABLED=false
for named agents" asserts. -/
theorem createStrategies_pamela_disabled_not_empty :
    createStrategies (noFlagsEnv "pamela" false none) =
      [StrategyType.interactive] ∧
    createStrategies (noFlagsEnv "pamela" false none) ≠ [] := by
  refine ⟨by decide, by decide⟩

/-- C1 (amended): with the global trading flag false and no explicit enable
flag forcing activation, the strategy set is empty exactly for the agent
identities whose resolved name has no default-table entry; identities with
a table entry still receive their mapped default. -/
theorem createStrategies_disabled_unknown_empty (e : StrategyEnv)
    (ht : e.tradingEnabled = false)
    (hi : e.interactiveEnabled ≠ some true)
    (hx : e.expiringEnabled ≠ some true)
    (hn : e.indexEnabled ≠ some true)
    (hs : e.simpleEnabled ≠ some true)
    (hd : defaultStrategyTable (strOr e.agentCharacter "pamela") = none) :
    createStrategies e = [] := by
  unfold createStrategies explicitStrategies
  simp [hi, hx, hn, hs, hd, ht]

/-- C1 (witness): the amended theorem at the concrete unknown identity the
tests use. -/
theorem createStrategies_disabled_unknown_empty_witness :
    createStrategies (noFlagsEnv "unknown-agent" false none) = [] :=
  createStrategies_disabled_unknown_empty (noFlagsEnv "unknown-agent" false none)
    (by decide) (by decide) (by decide) (by decide) (by decide) (by decide)

/-- C3: explicit enable flags compose additively and suppress the identity
default.  For pamela (default InteractiveStrategy), enabling only
SIMPLE_STRATEGY_ENABLED activates exactly the SimpleThresholdStrategy;
enabling INTERACTIVE_STRATEGY_ENABLED and SIMPLE_STRATEGY_ENABLED
activates exactly the two strategies whose sorted name list is
InteractiveStrategy, SimpleThresholdStrategy. -/
theorem createStrategies_explicit_flags_additive :
    (createStrategies
        { noFlagsEnv "pamela" true none with simpleEnabled := some true } =
      [StrategyType.simpleThreshold] ∧
     (createStrategies
        { noFlagsEnv "pamela" true none with simpleEnabled := some true }).map
        strategyName = ["SimpleThresholdStrategy"]) ∧
    ((createStrategies
        { noFlagsEnv "pamela" true none with
            interactiveEnabled := some true, simpleEnabled := some true }).map
        strategyName = ["InteractiveStrategy", "SimpleThresholdStrategy"]) := by
  refine ⟨⟨by decide, by decide⟩, by decide⟩

/-- C4: for pamela with trading enabled and no explicit flags, exactly one
strategy is active, her mapped default, named InteractiveStrategy. -/
theorem createStrategies_pamela_default :
    createStrategies (noFlagsEnv "pamela" true none) =
      [StrategyType.interactive] ∧
    (createStrategies (noFlagsEnv "pamela" true none)).map strategyName =
      ["InteractiveStrategy"] := by
  refine ⟨by decide, by decide⟩

/-- C7: for every agent identity whose resolved name has no default-table
entry, with trading enabled and no explicit flags, exactly the baseline
SimpleThresholdStrategy is active. -/
theorem createStrategies_unknown_identity_baseline (e : StrategyEnv)
    (ht : e.tradingEnabled = true)
    (hi : e.interactiveEnabled ≠ some true)
    (hx : e.expiringEnabled ≠ some true)
    (hn : e.indexEnabled ≠ some true)
    (hs : e.simpleEnabled ≠ some true)
    (hd : defaultStrategyTable (strOr e.agentCharacter "pamela") = none) :
    createStrategies e = [StrategyType.simpleThreshold] ∧
    (createStrategies e).map strategyName = ["SimpleThresholdStrategy"] := by
  unfold createStrategies explicitStrategies
  simp [hi, hx, hn, hs, hd, ht, strategyName]

/-- C7 (witness): the theorem at the concrete unknown identity of the test
"should handle unknown agent character with default". -/
theorem createStrategies_unknown_identity_baseline_witness :
    createStrategies (noFlagsEnv "unknown-agent" true none) =
      [StrategyType.simpleThreshold] ∧
    (createStrategies (noFlagsEnv "unknown-agent" true none)).map
      strategyName = ["SimpleThresholdStrategy"] :=
  createStrategies_unknown_identity_baseline
    (noFlagsEnv "unknown-agent" true none)
    (by decide) (by decide) (by decide) (by decide) (by decide) (by decide)

/-- C9: the Index strategy with no configured index identifier is inert —
its evaluation returns zero signals and no error for every position list
and snapshot set; and activation does not reject it: the factory still
activates exactly the Index strategy for lib-out when SPMC_INDEX_ID is
absent. -/
theorem indexStrategy_inert_without_indexId (e : StrategyEnv)
    (targetWeights : List (String × ℚ)) (positions : List (String × ℚ))
    (snapshots : List MarketSnapshot)
    (h : ¬ truthy e.spmcIndexId) :
    indexEvaluate (indexConfigOf e targetWeights) positions snapshots =
      Except.ok [] ∧
    createStrategies (noFlagsEnv "lib-out" true none) = [StrategyType.index] := by
  refine ⟨?_, by decide⟩
  unfold indexEvaluate indexConfigOf
  simp [h]

/-- C9 (witness): the theorem at a concrete environment with SPMC_INDEX_ID
unset, a nonempty target basket, and a nonempty snapshot set. -/
theorem indexStrategy_inert_without_indexId_witness :
    indexEvaluate
      (indexConfigOf (noFlagsEnv "lib-out" true none) [("tok-a", 1)])
      [("tok-a", 2)]
      [{ marketId := "m1", tokenId := "tok-a", price := 1/2, liquidity := 100,
         secondsToResolution := 3600, impliedProbability := 1/2 }] =
      Except.ok [] ∧
    createStrategies (noFlagsEnv "lib-out" true none) = [StrategyType.index] :=
  indexStrategy_inert_without_indexId (noFlagsEnv "lib-out" true none)
    [("tok-a", 1)] [("tok-a", 2)]
    [{ marketId := "m1", tokenId := "tok-a", price := 1/2, liquidity := 100,
       secondsToResolution := 3600, impliedProbability := 1/2 }]
    (by decide)

/-- C2: for every wallet with nonnegative collateral and every signal with
nonnegative size and limit price, a filled order result never leaves the
collateral balance negative — the balance check admits a BUY only when its
notional is covered and a SELL credits proceeds — and any non-filled
outcome leaves the wallet untouched: the balance is decremented only by a
confirmed fill, never at signal time. -/
theorem submit_filled_balance_nonneg (ctx : GateCtx) (reply : ExchangeReply)
    (sig : TradeSignal) (w : AgentWallet)
    (hw : 0 ≤ w.collateralBalance) (hs : 0 ≤ sig.size)
    (hp : 0 ≤ sig.limitPrice) :
    ((submit ctx reply sig w).1.outcome = OrderOutcome.filled →
      0 ≤ (submit ctx reply sig w).2.collateralBalance) ∧
    ((submit ctx reply sig w).1.outcome ≠ OrderOutcome.filled →
      (submit ctx reply sig w).2 = w) := by
  unfold submit
  rcases hside : sig.side with _ | _ <;>
    simp only [hside] <;>
    split_ifs with h1 h2 h3 h4 <;>
    try (exact ⟨by intro h; simp_all, fun _ => rfl⟩)
  · -- BUY, all checks passed: case on the exchange reply
    rcases reply with _ | r | _
    · refine ⟨fun _ => ?_, by simp⟩
      unfold applyFill
      simp only [hside]
      have hle : sig.size * sig.limitPrice ≤ w.collateralBalance := by
        simpa using h3
      simp [sub_nonneg]
      linarith
    · exact ⟨by simp, fun _ => rfl⟩
    · exact ⟨by simp, fun _ => rfl⟩
  · -- SELL, all checks passed: case on the exchange reply
    rcases reply with _ | r | _
    · refine ⟨fun _ => ?_, by simp⟩
      unfold applyFill
      simp only [hside]
      have : 0 ≤ sig.size * sig.limitPrice := mul_nonneg hs hp
      simp
      linarith
    · exact ⟨by simp, fun _ => rfl⟩
    · exact ⟨by simp, fun _ => rfl⟩

/-- A gate context fixture: every market valid, nothing in flight, a 100
unit exposure limit. -/
def fixtureGateCtx : GateCtx :=
  { validMarket := fun _ => true
    inFlight := fun _ => false
    maxExposure := 100 }

/-- A BUY signal fixture: two shares at a limit price of one half. -/
def fixtureBuySignal : TradeSignal :=
  { sourceStrategy := "SimpleThresholdStrategy"
    tokenId := "tok-a"
    side := Side.buy
    size := 2
    limitPrice := 1/2
    confidence := 9/10
    rationale := "price below buy threshold" }

/-- A wallet fixture with ten units of collateral and no open positions. -/
def fixtureWallet : AgentWallet :=
  { collateralBalance := 10, openPositions := [] }

/-- C2 (witness): the balance invariant at a concrete filled BUY. -/
theorem submit_filled_balance_nonneg_witness :
    ((submit fixtureGateCtx ExchangeReply.fill fixtureBuySignal
        fixtureWallet).1.outcome = OrderOutcome.filled →
      0 ≤ (submit fixtureGateCtx ExchangeReply.fill fixtureBuySignal
        fixtureWallet).2.collateralBalance) ∧
    ((submit fixtureGateCtx ExchangeReply.fill fixtureBuySignal
        fixtureWallet).1.outcome ≠ OrderOutcome.filled →
      (submit fixtureGateCtx ExchangeReply.fill fixtureBuySignal
        fixtureWallet).2 = fixtureWallet) :=
  submit_filled_balance_nonneg fixtureGateCtx ExchangeReply.fill
    fixtureBuySignal fixtureWallet
    (by norm_num [fixtureWallet]) (by norm_num [fixtureBuySignal])
    (by norm_num [fixtureBuySignal])

/-- An injected config document whose character definition has a name but
no id. -/
def namelessIdConfigJson : Json :=
  { character := some { id := none, name := some "Nameless", system := some "sys" }
    agent_character := none
    agent_id := none
    id := none
    name := none
    system := none }

/-- A filesystem holding only that injected config. -/
def namelessIdFs : FileSystem := fun p =>
  if p = "/app/config.json" then some (some namelessIdConfigJson) else none

/-- C6 (counterexample): for an injected config whose character definition
lacks an id, the runtime loader still resolves from the injected config
(priority 1, id absent), while the setup script falls through its stricter
guard to the hardcoded fallback — the two implementations select different
sources and different character ids at the same input. -/
theorem loadCharacter_loadAgentConfig_diverge :
    (loadCharacter fixtureRegistry pamelaCharacter namelessIdFs emptyEnv).id =
      none ∧
    (loadAgentConfig namelessIdFs emptyEnv).id = some hardcodedPamelaId ∧
    (loadCharacter fixtureRegistry pamelaCharacter namelessIdFs emptyEnv).id ≠
    (loadAgentConfig namelessIdFs emptyEnv).id := by
  refine ⟨by decide, by decide, by decide⟩

/-- C6 (amended): the two implementations agree on the injected-config
source exactly when its character definition carries a truthy id and a
truthy name: both then resolve from the injected config and return that
id and name.  When the id or name is missing they diverge — `loadCharacter`
still returns the injected definition while `loadAgentConfig` falls
through to a later source. -/
theorem loadCharacter_loadAgentConfig_agree_on_full_character
    (registry : String → Option Character) (defaultCharacter : Character)
    (fs : FileSystem) (env : LoaderEnv) (j : Json) (cd : CharacterDef)
    (hfs : fs (spmcConfigPath env) = some (some j))
    (hc : j.character = some cd)
    (hid : truthy cd.id) (hname : truthy cd.name) :
    (loadCharacter registry defaultCharacter fs env).id = cd.id ∧
    (loadAgentConfig fs env).id = cd.id ∧
    (loadCharacter registry defaultCharacter fs env).name = cd.name ∧
    (loadAgentConfig fs env).name = cd.name := by
  unfold loadCharacter loadAgentConfig spmcCharacterGuard
  simp [hfs, hc, hid, hname, buildCharacterFromConfig]

/-- An injected config document with a complete character definition. -/
def fullCharacterConfigJson : Json :=
  { character := some
      { id := some "abc-123-def-456-789"
        name := some "Agent X"
        system := some "You are Agent X." }
    agent_character := none
    agent_id := none
    id := none
    name := none
    system := none }

/-- A filesystem holding only that injected config. -/
def fullCharacterFs : FileSystem := fun p =>
  if p = "/app/config.json" then some (some fullCharacterConfigJson) else none

/-- C6 (witness): the agreement theorem at the concrete full-character
config. -/
theorem loadCharacter_loadAgentConfig_agree_witness :
    (loadCharacter fixtureRegistry pamelaCharacter fullCharacterFs
        emptyEnv).id = some "abc-123-def-456-789" ∧
    (loadAgentConfig fullCharacterFs emptyEnv).id =
      some "abc-123-def-456-789" ∧
    (loadCharacter fixtureRegistry pamelaCharacter fullCharacterFs
        emptyEnv).name = some "Agent X" ∧
    (loadAgentConfig fullCharacterFs emptyEnv).name = some "Agent X" :=
  loadCharacter_loadAgentConfig_agree_on_full_character fixtureRegistry
    pamelaCharacter fullCharacterFs emptyEnv fullCharacterConfigJson
    { id := some "abc-123-def-456-789", name := some "Agent X",
      system := some "You are Agent X." }
    (by decide) (by decide) (by decide) (by decide)

/-- C8: the agents-table bootstrap is idempotent — running the step a
second time with the same resolved configuration leaves the table exactly
as the first run left it, and when a row with the resolved id already
exists the step inserts, deletes and modifies nothing. -/
theorem setupAgentsStep_idempotent (cfg : AgentConfigRecord)
    (table : List AgentRow) :
    setupAgentsStep cfg (setupAgentsStep cfg table) =
      setupAgentsStep cfg table ∧
    ((∃ r ∈ table, r.id = cfg.id.getD "") → setupAgentsStep cfg table = table) := by
  constructor
  · by_cases h : table.any (fun r => r.id = cfg.id.getD "") = true
    · have h1 : setupAgentsStep cfg table = table := by
        unfold setupAgentsStep
        rw [if_pos h]
      rw [h1]
      exact h1
    · have hstep : setupAgentsStep cfg table =
          (table.filter fun r =>
            ¬ (r.name = cfg.name.getD "" ∧ r.id ≠ cfg.id.getD "")) ++
          [agentRowOf cfg] := by
        unfold setupAgentsStep
        rw [if_neg h]
      rw [hstep]
      have hmem : ((table.filter fun r =>
          ¬ (r.name = cfg.name.getD "" ∧ r.id ≠ cfg.id.getD "")) ++
          [agentRowOf cfg]).any (fun r => r.id = cfg.id.getD "") = true := by
        simp [List.any_append, agentRowOf]
      unfold setupAgentsStep
      rw [if_pos hmem]
  · intro h
    have hany : table.any (fun r => r.id = cfg.id.getD "") = true := by
      rcases h with ⟨r, hr, hid⟩
      simp only [List.any_eq_true]
      exact ⟨r, hr, by simp [hid]⟩
    unfold setupAgentsStep
    rw [if_pos hany]

/-- A resolved configuration fixture for the bootstrap witness. -/
def fixtureAgentConfig : AgentConfigRecord :=
  { id := some "abc-123-def-456-789"
    name := some "Agent X"
    system := "You are Agent X." }

/-- C8 (witness): idempotence at a concrete configuration and the
no-change clause at a table already holding the row the first run
inserts. -/
theorem setupAgentsStep_idempotent_witness :
    setupAgentsStep fixtureAgentConfig
        (setupAgentsStep fixtureAgentConfig []) =
      setupAgentsStep fixtureAgentConfig [] ∧
    setupAgentsStep fixtureAgentConfig [agentRowOf fixtureAgentConfig] =
      [agentRowOf fixtureAgentConfig] :=
  ⟨(setupAgentsStep_idempotent fixtureAgentConfig []).1,
   (setupAgentsStep_idempotent fixtureAgentConfig
      [agentRowOf fixtureAgentConfig]).2
     ⟨agentRowOf fixtureAgentConfig, by simp, by decide⟩⟩

/-- C10: `validateCharacter` succeeds exactly when the id, name and system
prompt are present and the id is five dash-separated nonempty segments —
so it throws if and only if one of those checks fails — and its result
never depends on the `AGENT_ID` environment variable: an id mismatch is a
warning only, and the character is left unchanged. -/
theorem validateCharacter_ok_iff (env env2 : LoaderEnv) (c : Character) :
    (validateCharacter env c = Except.ok () ↔
      (truthy c.id = true ∧ truthy c.name = true ∧ truthy c.system = true ∧
       fiveSegments (c.id.getD "") = true)) ∧
    validateCharacter env c = validateCharacter env2 c := by
  refine ⟨?_, rfl⟩
  unfold validateCharacter
  split_ifs with h1 h2 h3 h4 <;> simp_all

end TradingAgents
